import Mathlib

/-!
Formal model of the Midnight Signals page component (src/app/page.tsx).

The component drives a fixed timeline of narrative segments with a
procedurally synthesized soundscape.  We embed it in two complementary,
executable layers:

1. a state machine over PageState, modelling the React refs and state
   hooks together with the synchronous bodies of clearSchedule,
   stopAmbient, teardownAudio, ensureAudioContext, beginAmbientBed,
   triggerEffects, startTimer, startExperience and stopExperience;
2. a timed event-trace model (runBatches) of the deferred callbacks that
   startExperience registers with window.setTimeout, giving each
   callback its firing offset in milliseconds from the start of playback
   and the list of observable actions it performs.

Audio nodes are modelled by their lifecycle flags (stopped, connected)
and a running count of created nodes; window timer handles are modelled
by a monotone counter; the AudioContext is modelled by a generation
number so that releasing and re-acquiring the backend is observable.
-/

/-- Effect kinds, mirroring the StoryEffect union type of the source. -/
inductive StoryEffect
  | heartbeat
  | creak
  | whisper
  | gust
  | chime
deriving DecidableEq, Repr

/-- One narrative segment, mirroring the StorySegment record: an id, the
displayed text, the duration in milliseconds until the next segment, and
an optional list of effects. -/
structure StorySegment where
  id : String
  text : String
  duration : Nat
  effects : Option (List StoryEffect) := none
deriving DecidableEq, Repr

/-- The fixed timeline STORY_SEGMENTS of the source, verbatim. -/
def STORY_SEGMENTS : List StorySegment :=
  [ { id := "segment-1",
      text := "Lila missed the last train, the platform lights clicking in a broken rhythm that echoed across the empty tunnel.",
      duration := 7500,
      effects := some [.heartbeat] },
    { id := "segment-2",
      text := "In the station’s maintenance log, a single line pulsed on her phone: Midnight maintenance delayed—do not remain underground.",
      duration := 7000,
      effects := some [.whisper] },
    { id := "segment-3",
      text := "A gust sighed down the tracks, carrying the copper tang of rain and the faint scrape of nails against old rail ties.",
      duration := 8000,
      effects := some [.gust] },
    { id := "segment-4",
      text := "Over the loudspeaker, a voice she didn’t recognize repeated her name, each syllable melting into static and low pleading.",
      duration := 7500,
      effects := some [.whisper, .heartbeat] },
    { id := "segment-5",
      text := "The arrival board flickered to 00:00—Track Thirteen—while a silhouette stepped from the tunnel, dripping shadow instead of water.",
      duration := 8000,
      effects := some [.creak] },
    { id := "segment-6",
      text := "When Lila backed away, the tiles beneath her boots shivered and cracked, revealing the hollow thud of bones beneath.",
      duration := 7500,
      effects := some [.heartbeat] },
    { id := "segment-7",
      text := "The silhouette lifted a lantern that glowed with trapped moths, each wingbeat tolling like a funeral chime.",
      duration := 7500,
      effects := some [.chime] },
    { id := "segment-8",
      text := "As the phantom train roared past, empty windows filled with faces she knew: all the commuters who ever vanished between stops, all mouthing the same warning—You’re already aboard.",
      duration := 8200,
      effects := some [.creak, .whisper] } ]

/-- Sum of segment durations, mirroring the reduce over STORY_SEGMENTS
that defines TOTAL_DURATION in the source. -/
def totalDuration (segs : List StorySegment) : Nat :=
  segs.foldl (fun sum seg => sum + seg.duration) 0

/-- The TOTAL_DURATION constant of the source. -/
def TOTAL_DURATION : Nat := totalDuration STORY_SEGMENTS

/-- The id of the segment at position i, or the empty string when i is
out of range (the source only uses in-range indices). -/
def segIdAt (segs : List StorySegment) (i : Nat) : String :=
  ((segs.get? i).map StorySegment.id).getD ""

/-- The duration of the segment at position i, or zero when i is out of
range (the source only uses in-range indices). -/
def durAt (segs : List StorySegment) (i : Nat) : Nat :=
  ((segs.get? i).map StorySegment.duration).getD 0

/-- Lifecycle flags of one schedulable audio source node (oscillator or
buffer source): whether stop was performed on it and whether it is still
connected into the graph. -/
structure SourceNode where
  stopped : Bool
  connected : Bool
deriving DecidableEq, Repr

/-- The AmbientNodes record of the source: the oscillator list plus the
optional tremolo modulator and the optional looping noise source. -/
structure AmbientNodes where
  oscillators : List SourceNode
  tremolo : Option SourceNode := none
  noise : Option SourceNode := none
deriving DecidableEq, Repr

/-- Controller status, mirroring the status React state: idle, playing or
finished. -/
inductive Status
  | idle
  | playing
  | finished
deriving DecidableEq, Repr

/-- Runtime capabilities of the environment hosting the component:
whether a window object exists and whether an AudioContext constructor
(standard or webkit prefixed) is available. -/
structure Env where
  hasWindow : Bool
  audioSupported : Bool
deriving DecidableEq, Repr

/-- Errors thrown by ensureAudioContext: running without a window object,
or no Web Audio constructor in the environment (UnsupportedBackend). -/
inductive AudioError
  | contextUnavailableOnServer
  | unsupportedBackend
deriving DecidableEq, Repr

/-- Full component state: the React state hooks (visibleSegments,
activeSegment, status, elapsed) and the refs (audioContextRef as a
generation number, masterGainRef, ambientRef, scheduleTimeoutsRef,
timerIntervalRef).  nextHandle numbers window timer handles, nextCtxGen
numbers AudioContext instances, createdNodes counts every audio node
built so far, so resource creation is observable. -/
structure PageState where
  visibleSegments : List String
  activeSegment : Option String
  status : Status
  elapsed : Nat
  audioContext : Option Nat
  contextSuspended : Bool
  masterGain : Option Nat
  ambient : Option AmbientNodes
  scheduleTimeouts : List Nat
  timerInterval : Option Nat
  nextHandle : Nat
  nextCtxGen : Nat
  createdNodes : Nat
deriving DecidableEq, Repr

/-- The component state on first render: nothing visible, idle, no audio
objects, nothing scheduled. -/
def initialPageState : PageState :=
  { visibleSegments := []
    activeSegment := none
    status := .idle
    elapsed := 0
    audioContext := none
    contextSuspended := false
    masterGain := none
    ambient := none
    scheduleTimeouts := []
    timerInterval := none
    nextHandle := 1
    nextCtxGen := 0
    createdNodes := 0 }

/-- The clearSchedule callback: clearTimeout on every stored handle and
empty the handle list, then clearInterval on the ticker handle when one
is set and null it out. -/
def clearSchedule (s : PageState) : PageState :=
  let s1 := { s with scheduleTimeouts := [] }
  match s1.timerInterval with
  | some _ => { s1 with timerInterval := none }
  | none => s1

/-- One step of the per-node stop call inside stopAmbient: stopping a
node that was already stopped raises, which the source catches and
ignores; stopping a running node marks it stopped. -/
def nodeStop (n : SourceNode) : Except String SourceNode :=
  if n.stopped then .error "InvalidStateError" else .ok { n with stopped := true }

/-- The per-node disposal performed by stopAmbient on each owned node:
try to stop it, swallow the error when it was already stopped, then
disconnect it unconditionally. -/
def stopNodeSafe (n : SourceNode) : SourceNode :=
  let n1 := match nodeStop n with
    | .ok n2 => n2
    | .error _ => n
  { n1 with connected := false }

/-- Effect of stopAmbient on the owned node set: every oscillator, the
tremolo if present and the noise source if present go through
stopNodeSafe independently. -/
def stopAmbientNodes (nodes : AmbientNodes) : AmbientNodes :=
  { oscillators := nodes.oscillators.map stopNodeSafe
    tremolo := nodes.tremolo.map stopNodeSafe
    noise := nodes.noise.map stopNodeSafe }

/-- The stopAmbient callback at the component level: when no ambient
instance exists it returns at once; otherwise it disposes every owned
node (stopAmbientNodes) and nulls ambientRef. -/
def stopAmbient (s : PageState) : PageState :=
  match s.ambient with
  | none => s
  | some _ => { s with ambient := none }

/-- The teardownAudio callback: stop the ambient bed, disconnect and drop
the master gain if present, close and drop the AudioContext if present
(close failures are swallowed). -/
def teardownAudio (s : PageState) : PageState :=
  let s1 := stopAmbient s
  let s2 := match s1.masterGain with
    | some _ => { s1 with masterGain := none }
    | none => s1
  match s2.audioContext with
  | some _ => { s2 with audioContext := none, contextSuspended := false }
  | none => s2

/-- The ensureAudioContext callback: throws when no window exists; when
no context is held yet it requires an AudioContext constructor (throwing
UnsupportedBackend otherwise) and builds a fresh context with a master
gain connected to the destination; when a suspended context is held it
resumes it; otherwise it returns the existing handles unchanged. -/
def ensureAudioContext (env : Env) (s : PageState) : Except AudioError PageState :=
  if env.hasWindow = false then
    .error .contextUnavailableOnServer
  else
    match s.audioContext with
    | none =>
      if env.audioSupported = false then
        .error .unsupportedBackend
      else
        .ok { s with audioContext := some s.nextCtxGen
                     masterGain := some s.nextCtxGen
                     contextSuspended := false
                     nextCtxGen := s.nextCtxGen + 1
                     createdNodes := s.createdNodes + 1 }
    | some _ =>
      if s.contextSuspended then .ok { s with contextSuspended := false }
      else .ok s

/-- The node set built by beginAmbientBed: the two drone oscillators in
the oscillator list, the tremolo modulator and the looping noise source,
all started and connected. -/
def freshAmbientNodes : AmbientNodes :=
  { oscillators :=
      [ { stopped := false, connected := true }
      , { stopped := false, connected := true } ]
    tremolo := some { stopped := false, connected := true }
    noise := some { stopped := false, connected := true } }

/-- Number of audio nodes beginAmbientBed creates: bass oscillator, bass
gain, high oscillator, high gain, tremolo oscillator, tremolo depth
gain, noise source, noise filter, noise gain. -/
def ambientNodeCount : Nat := 9

/-- The beginAmbientBed callback: returns at once when an ambient
instance already exists; otherwise builds the drone oscillators, the
tremolo and the looping noise bed and records them in ambientRef. -/
def beginAmbientBed (s : PageState) : PageState :=
  match s.ambient with
  | some _ => s
  | none =>
    { s with ambient := some freshAmbientNodes
             createdNodes := s.createdNodes + ambientNodeCount }

/-- Number of audio nodes each one-shot voice recipe creates: heartbeat
builds a gain and an oscillator; creak an oscillator, a gain and a
filter; whisper and gust a buffer source, a filter and a gain; chime
three oscillators with three gains. -/
def effectNodeCount : StoryEffect → Nat
  | .heartbeat => 2
  | .creak => 3
  | .whisper => 3
  | .gust => 3
  | .chime => 6

/-- The triggerEffects callback: returns at once when the effect list is
absent or empty, or when no AudioContext or master gain is held;
otherwise it synthesizes one self-terminating voice per listed effect. -/
def triggerEffects (effects : Option (List StoryEffect)) (s : PageState) : PageState :=
  match effects with
  | none => s
  | some effs =>
    if effs.length = 0 then s
    else
      match s.audioContext, s.masterGain with
      | some _, some _ =>
        { s with createdNodes := s.createdNodes + (effs.map effectNodeCount).sum }
      | _, _ => s

/-- The startTimer callback: reset elapsed to zero and register the
120 ms elapsed-time interval, storing its handle in timerIntervalRef. -/
def startTimer (s : PageState) : PageState :=
  { s with elapsed := 0
           timerInterval := some s.nextHandle
           nextHandle := s.nextHandle + 1 }

/-- The forEach loop of startExperience over the segment list: index 0 is
skipped and every later index registers one deferred callback with
window.setTimeout, pushing its handle onto scheduleTimeoutsRef. -/
def pushTimeouts : List StorySegment → Nat → PageState → PageState
  | [], _, s => s
  | _ :: rest, idx, s =>
    if idx = 0 then pushTimeouts rest (idx + 1) s
    else
      pushTimeouts rest (idx + 1)
        { s with scheduleTimeouts := s.scheduleTimeouts ++ [s.nextHandle]
                 nextHandle := s.nextHandle + 1 }

/-- Opening sequence of the startExperience callback: clear the schedule,
reset the visible and active segments, set status playing and elapsed 0.
These happen before the audio backend acquisition is awaited. -/
def resetForStart (s : PageState) : PageState :=
  { clearSchedule s with visibleSegments := []
                         activeSegment := none
                         status := Status.playing
                         elapsed := 0 }

/-- The startExperience callback: perform the opening reset, then acquire
the audio backend (an acquisition error propagates to the caller with
the state reached so far), begin the ambient bed, trigger the effects of
segment 0, start the ticker, reveal segment 0 synchronously and register
the deferred callbacks of every later segment. -/
def startExperience (env : Env) (s : PageState) : PageState × Option AudioError :=
  match ensureAudioContext env (resetForStart s) with
  | .error e => (resetForStart s, some e)
  | .ok s3 =>
    let s4 := beginAmbientBed s3
    let s5 := triggerEffects ((STORY_SEGMENTS.get? 0).bind (fun seg => seg.effects)) s4
    let s6 := startTimer s5
    let s7 := { s6 with visibleSegments := [segIdAt STORY_SEGMENTS 0]
                        activeSegment := some (segIdAt STORY_SEGMENTS 0) }
    (pushTimeouts STORY_SEGMENTS 0 s7, none)

/-- The stopExperience callback: clear the schedule, return to idle with
no visible or active segment and elapsed 0, then tear down the audio
backend entirely. -/
def stopExperience (s : PageState) : PageState :=
  let s1 := clearSchedule s
  let s2 := { s1 with status := Status.idle
                      activeSegment := none
                      visibleSegments := []
                      elapsed := 0 }
  teardownAudio s2

/-- Observable actions performed during one playback run: triggering the
effects of segment i, revealing segment i, marking segment i active, and
the terminal transition of the finished callback (status finished,
active segment cleared, ticker stopped). -/
inductive RunEvent
  | trigger (i : Nat)
  | reveal (i : Nat)
  | setActive (i : Nat)
  | finished
deriving DecidableEq, Repr

/-- Concatenation of a list of lists. -/
def listJoin {α : Type} : List (List α) → List α
  | [] => []
  | l :: ls => l ++ listJoin ls

/-- Timed callbacks registered for segment index i by the forEach loop of
startExperience: index 0 registers nothing; a later index registers one
callback at the sum of the durations of all earlier segments that
reveals the segment, marks it active and triggers its effects; the last
index additionally makes that callback register the finished callback at
its own duration past its firing time. -/
def segmentBatches (segs : List StorySegment) (i : Nat) : List (Nat × List RunEvent) :=
  if i = 0 then []
  else
    (totalDuration (segs.take i),
      [RunEvent.reveal i, RunEvent.setActive i, RunEvent.trigger i]) ::
      (if i = segs.length - 1 then
        [(totalDuration (segs.take i) + durAt segs i, [RunEvent.finished])]
       else [])

/-- The full timed trace of one playback run, in firing order: the
synchronous body of startExperience fires at offset 0 (trigger the
effects of segment 0, then reveal it and mark it active), followed by
the deferred callbacks of every later segment. -/
def runBatches (segs : List StorySegment) : List (Nat × List RunEvent) :=
  (0, [RunEvent.trigger 0, RunEvent.reveal 0, RunEvent.setActive 0]) ::
    listJoin ((List.range segs.length).map (segmentBatches segs))

/-- Firing offsets of the callbacks that perform the terminal finished
transition, extracted from the run trace. -/
def finishTimes (segs : List StorySegment) : List Nat :=
  (runBatches segs).filterMap
    (fun b => if RunEvent.finished ∈ b.2 then some b.1 else none)

/-- The renderer-observable part of the state during one run: which
segments are visible, which is active, and the controller status. -/
structure ObsState where
  visibleSegments : List String
  activeSegment : Option String
  status : Status
deriving DecidableEq, Repr

/-- Deduplicating append, modelling the functional update of
visibleSegments in the deferred callbacks, which rebuilds the array from
a Set of the previous elements plus the new id. -/
def insertUnique (l : List String) (x : String) : List String :=
  if x ∈ l then l else l ++ [x]

/-- Effect of one run event on the observable state.  The synchronous
reveal of segment 0 assigns the singleton list (the source sets
visibleSegments to exactly that list right after resetting it); the
deferred reveals append through the Set-based update; the finished
callback sets status finished and clears the active segment. -/
def applyEvent (segs : List StorySegment) (s : ObsState) : RunEvent → ObsState
  | .trigger _ => s
  | .reveal i =>
    if i = 0 then { s with visibleSegments := [segIdAt segs 0] }
    else { s with visibleSegments := insertUnique s.visibleSegments (segIdAt segs i) }
  | .setActive i => { s with activeSegment := some (segIdAt segs i) }
  | .finished => { s with status := .finished, activeSegment := none }

/-- Effect of one callback (a batch of events run back to back) on the
observable state. -/
def applyBatch (segs : List StorySegment) (s : ObsState) (evs : List RunEvent) : ObsState :=
  evs.foldl (applyEvent segs) s

/-- The observable state right after startExperience resets it and sets
status playing, before any run event fires. -/
def initialObs : ObsState :=
  { visibleSegments := [], activeSegment := none, status := .playing }

/-- The observable state after the first k callbacks of a run have
fired. -/
def obsAfter (segs : List StorySegment) (k : Nat) : ObsState :=
  ((runBatches segs).take k).foldl (fun s b => applyBatch segs s b.2) initialObs

/-- One step of the most-recently-revealed tracking: a reveal of segment
i makes i the most recent, the finished transition clears it, other
events leave it unchanged. -/
def activeStep (segs : List StorySegment) (acc : Option String) : RunEvent → Option String
  | .reveal i => some (segIdAt segs i)
  | .finished => none
  | .trigger _ => acc
  | .setActive _ => acc

/-- The id of the most recently revealed segment after a prefix of the
run trace, or none once the finished transition occurred. -/
def expectedActive (segs : List StorySegment) (batches : List (Nat × List RunEvent)) : Option String :=
  batches.foldl (fun acc b => b.2.foldl (activeStep segs) acc) none

/-- A state in which an ambient bed instance is running on a live audio
session, as reached right after a successful start. -/
def runningAmbientState : PageState :=
  { initialPageState with
      status := .playing
      audioContext := some 0
      masterGain := some 0
      ambient := some freshAmbientNodes
      nextCtxGen := 1
      createdNodes := 10 }

/-- An ambient node set in which some nodes were already stopped before
teardown, exercising the tolerance of the disposal loop. -/
def wornAmbientNodes : AmbientNodes :=
  { oscillators :=
      [ { stopped := true, connected := true }
      , { stopped := false, connected := true } ]
    tremolo := some { stopped := true, connected := false }
    noise := some { stopped := false, connected := true } }

lemma stopNodeSafe_spec (n : SourceNode) :
    (stopNodeSafe n).stopped = true ∧ (stopNodeSafe n).connected = false := by
  unfold stopNodeSafe nodeStop
  cases h : n.stopped <;> simp [h]

example : totalDuration STORY_SEGMENTS = 61200 := by decide
example : (startExperience { hasWindow := true, audioSupported := true } initialPageState).1.status = .playing := by decide
example : (startExperience { hasWindow := true, audioSupported := true } initialPageState).1.scheduleTimeouts = [2, 3, 4, 5, 6, 7, 8] := by decide
example : (runBatches STORY_SEGMENTS).length = 9 := by decide
example : finishTimes STORY_SEGMENTS = [61200] := by decide
example : (obsAfter STORY_SEGMENTS 9).status = .finished := by decide
example : (obsAfter STORY_SEGMENTS 9).activeSegment = none := by decide
example : (obsAfter STORY_SEGMENTS 3).activeSegment = some "segment-3" := by decide
example : expectedActive STORY_SEGMENTS ((runBatches STORY_SEGMENTS).take 3) = some "segment-3" := by decide

/-- C4: clearSchedule cancels every still-pending deferred callback and
the elapsed-time ticker together: from any state, the resulting state is
the same state with an empty handle list and no ticker handle, so zero
events remain pending, and the call is safe (total) even when nothing is
pending. -/
theorem clearSchedule_cancels_all (s : PageState) :
    clearSchedule s = { s with scheduleTimeouts := [], timerInterval := none } := by
  cases s with
  | mk vis act st el ctx susp mg amb sched ti nh ng cn =>
    cases ti <;> rfl

theorem clearSchedule_cancels_all_witness :
    clearSchedule runningAmbientState
      = { runningAmbientState with scheduleTimeouts := [], timerInterval := none } :=
  clearSchedule_cancels_all runningAmbientState

/-- C6: calling beginAmbientBed while an ambient instance is already
running is a no-op: the state is returned unchanged, so no audio node is
created, the resource count is unchanged, and the single optional
ambientRef slot keeps holding the one existing instance. -/
theorem beginAmbientBed_noop_when_running (s : PageState) (nodes : AmbientNodes)
    (h : s.ambient = some nodes) : beginAmbientBed s = s := by
  unfold beginAmbientBed
  rw [h]

theorem beginAmbientBed_noop_when_running_witness :
    beginAmbientBed runningAmbientState = runningAmbientState :=
  beginAmbientBed_noop_when_running runningAmbientState freshAmbientNodes rfl

/-- C7: stopAmbient disposes every node owned by the ambient instance:
each oscillator, the tremolo and the noise source end up stopped and
disconnected, with the stop of an already-stopped node isolated (its
error is swallowed) so one node never prevents disposal of the others;
afterwards the component holds no ambient instance, and a subsequent
beginAmbientBed is a valid fresh start building a new full node set. -/
theorem stopAmbient_disposes_everything (nodes : AmbientNodes) (s : PageState) :
    (∀ o ∈ (stopAmbientNodes nodes).oscillators, o.stopped = true ∧ o.connected = false) ∧
    (∀ o, (stopAmbientNodes nodes).tremolo = some o → o.stopped = true ∧ o.connected = false) ∧
    (∀ o, (stopAmbientNodes nodes).noise = some o → o.stopped = true ∧ o.connected = false) ∧
    (stopAmbient s).ambient = none ∧
    (beginAmbientBed (stopAmbient s)).ambient = some freshAmbientNodes := by
  have hstop : (stopAmbient s).ambient = none := by
    unfold stopAmbient
    cases h : s.ambient <;> simp [h]
  refine ⟨?_, ?_, ?_, hstop, ?_⟩
  · intro o ho
    rw [stopAmbientNodes, List.mem_map] at ho
    obtain ⟨n, _, rfl⟩ := ho
    exact stopNodeSafe_spec n
  · intro o ho
    rw [stopAmbientNodes] at ho
    cases h : nodes.tremolo with
    | none => rw [h] at ho; simp at ho
    | some t =>
      rw [h] at ho
      simp only [Option.map_some'] at ho
      cases ho
      exact stopNodeSafe_spec t
  · intro o ho
    rw [stopAmbientNodes] at ho
    cases h : nodes.noise with
    | none => rw [h] at ho; simp at ho
    | some t =>
      rw [h] at ho
      simp only [Option.map_some'] at ho
      cases ho
      exact stopNodeSafe_spec t
  · unfold beginAmbientBed
    rw [hstop]

theorem stopAmbient_disposes_everything_witness :
    (stopAmbient { runningAmbientState with ambient := some wornAmbientNodes }).ambient = none :=
  (stopAmbient_disposes_everything wornAmbientNodes
    { runningAmbientState with ambient := some wornAmbientNodes }).2.2.2.1

/-- C9: triggerEffects is a total no-op when the effect list is absent or
empty, or when no audio backend or master bus exists (for example after
teardown): it returns the state unchanged, creating no audio node and
raising no error. -/
theorem triggerEffects_noop (effects : Option (List StoryEffect)) (s : PageState)
    (h : effects = none ∨ effects = some [] ∨ s.audioContext = none ∨ s.masterGain = none) :
    triggerEffects effects s = s := by
  rcases h with h | h | h | h
  · subst h; rfl
  · subst h; rfl
  · cases effects with
    | none => rfl
    | some effs =>
      cases effs with
      | nil => rfl
      | cons e es =>
        cases hm : s.masterGain <;> simp [triggerEffects, h, hm]
  · cases effects with
    | none => rfl
    | some effs =>
      cases effs with
      | nil => rfl
      | cons e es =>
        cases hc : s.audioContext <;> simp [triggerEffects, h, hc]

theorem triggerEffects_noop_witness :
    triggerEffects none initialPageState = initialPageState :=
  triggerEffects_noop none initialPageState (Or.inl rfl)

/-- C2: for every segment of the timeline, the callback that triggers the
segment effects fires no earlier than the callback that reveals the
segment; for every non-first segment both actions share one deferred
callback, and for segment 0 both happen synchronously at offset 0 when
startExperience begins playback. -/
theorem trigger_no_earlier_than_reveal :
    ∀ i, i < STORY_SEGMENTS.length →
      ∀ b1 ∈ runBatches STORY_SEGMENTS, ∀ b2 ∈ runBatches STORY_SEGMENTS,
        RunEvent.trigger i ∈ b1.2 → RunEvent.reveal i ∈ b2.2 → b2.1 ≤ b1.1 := by
  decide

theorem trigger_no_earlier_than_reveal_witness :
    0 < STORY_SEGMENTS.length ∧ (0 : Nat) ≤ 0 :=
  ⟨by decide,
    trigger_no_earlier_than_reveal 0 (by decide)
      (0, [RunEvent.trigger 0, RunEvent.reveal 0, RunEvent.setActive 0]) (by decide)
      (0, [RunEvent.trigger 0, RunEvent.reveal 0, RunEvent.setActive 0]) (by decide)
      (by decide) (by decide)⟩

/-- C8: over the run of the timeline, the visible-segment set only grows
from one callback to the next (a revealed segment is never hidden by the
scheduler), after every callback the active segment is exactly the most
recently revealed one (none before the first reveal, none again once the
finished transition fired), and once the run ends the status is finished
with no active segment. -/
theorem run_visibility_monotone_and_active_tracks :
    (∀ k, k < (runBatches STORY_SEGMENTS).length →
      ∀ x ∈ (obsAfter STORY_SEGMENTS k).visibleSegments,
        x ∈ (obsAfter STORY_SEGMENTS (k + 1)).visibleSegments) ∧
    (∀ k, k ≤ (runBatches STORY_SEGMENTS).length →
      (obsAfter STORY_SEGMENTS k).activeSegment
        = expectedActive STORY_SEGMENTS ((runBatches STORY_SEGMENTS).take k)) ∧
    (obsAfter STORY_SEGMENTS (runBatches STORY_SEGMENTS).length).status = Status.finished ∧
    (obsAfter STORY_SEGMENTS (runBatches STORY_SEGMENTS).length).activeSegment = none := by
  refine ⟨by decide, by decide, by decide, by decide⟩

theorem run_visibility_monotone_and_active_tracks_witness :
    (obsAfter STORY_SEGMENTS 3).activeSegment
      = expectedActive STORY_SEGMENTS ((runBatches STORY_SEGMENTS).take 3) :=
  run_visibility_monotone_and_active_tracks.2.1 3 (by decide)

/-- An environment with a window but no Web Audio constructor, in which
acquiring the audio backend fails with UnsupportedBackend. -/
def noAudioEnv : Env := { hasWindow := true, audioSupported := false }

/-- A fully capable browser environment. -/
def fullAudioEnv : Env := { hasWindow := true, audioSupported := true }

/-- C1 counterexample: starting from the initial idle state in an
environment without audio support, startExperience propagates the
UnsupportedBackend error to its caller, but the controller status is not
idle afterwards: it was set to playing before the acquisition was
awaited and is never rolled back. -/
theorem start_unsupported_not_idle_cex :
    (startExperience noAudioEnv initialPageState).2 = some AudioError.unsupportedBackend ∧
    (startExperience noAudioEnv initialPageState).1.status = Status.playing ∧
    (startExperience noAudioEnv initialPageState).1.status ≠ Status.idle := by
  decide

/-- C1 amended: when no audio backend is held and the environment lacks
audio support, startExperience surfaces UnsupportedBackend to the caller
as a value without crashing (the synchronous part completes and the
rejection carries the error), leaves nothing pending, no ticker, no
visible or active segment, but the controller status is left at playing,
not idle. -/
theorem start_unsupported_surfaces_error (env : Env) (s : PageState)
    (hw : env.hasWindow = true) (ha : env.audioSupported = false)
    (hc : s.audioContext = none) :
    (startExperience env s).2 = some AudioError.unsupportedBackend ∧
    (startExperience env s).1.status = Status.playing ∧
    (startExperience env s).1.scheduleTimeouts = [] ∧
    (startExperience env s).1.timerInterval = none ∧
    (startExperience env s).1.visibleSegments = [] ∧
    (startExperience env s).1.activeSegment = none := by
  cases env with
  | mk w a =>
    subst hw
    subst ha
    cases s with
    | mk vis act st el ctx susp mg amb sched ti nh ng cn =>
      simp only at hc
      subst hc
      cases ti <;>
        simp [startExperience, resetForStart, clearSchedule, ensureAudioContext]

theorem start_unsupported_surfaces_error_witness :
    (startExperience noAudioEnv initialPageState).2 = some AudioError.unsupportedBackend ∧
    (startExperience noAudioEnv initialPageState).1.status = Status.playing ∧
    (startExperience noAudioEnv initialPageState).1.scheduleTimeouts = [] ∧
    (startExperience noAudioEnv initialPageState).1.timerInterval = none ∧
    (startExperience noAudioEnv initialPageState).1.visibleSegments = [] ∧
    (startExperience noAudioEnv initialPageState).1.activeSegment = none :=
  start_unsupported_surfaces_error noAudioEnv initialPageState rfl rfl rfl

/-- The component state after one full run of the timeline: all segments
visible, no active segment, status finished, the ambient bed still
running on the original AudioContext (generation 0) with the ticker
handle cleared by the finished callback.  Node count: one master gain,
nine ambient nodes and thirty effect-voice nodes across the run. -/
def finishedState : PageState :=
  { visibleSegments :=
      [ "segment-1", "segment-2", "segment-3", "segment-4"
      , "segment-5", "segment-6", "segment-7", "segment-8" ]
    activeSegment := none
    status := .finished
    elapsed := 61200
    audioContext := some 0
    contextSuspended := false
    masterGain := some 0
    ambient := some freshAmbientNodes
    scheduleTimeouts := []
    timerInterval := none
    nextHandle := 9
    nextCtxGen := 1
    createdNodes := 40 }

/-- C5 counterexample: starting again from the finished state keeps the
original AudioContext (generation 0), whereas the reset-then-start
sequence (the same full teardown as abort, releasing the Audio Session,
followed by start) builds a fresh context (generation 1); the two
resulting states differ, so the Finished-to-Playing transition does not
perform the full teardown the claim describes. -/
theorem replay_skips_audio_release_cex :
    (startExperience fullAudioEnv finishedState).1.audioContext = some 0 ∧
    (startExperience fullAudioEnv (stopExperience finishedState)).1.audioContext = some 1 ∧
    (startExperience fullAudioEnv finishedState).1
      ≠ (startExperience fullAudioEnv (stopExperience finishedState)).1 := by
  decide

/-- C5 amended: starting playback from the Finished status behaves
exactly like the Idle-to-Playing transition (startExperience never reads
the prior status), first performing an implicit reset of the schedule
and of the revealed, active and elapsed state; but the Audio Session is
reused, not released: a context held before the replay is still the
context after it. -/
theorem replay_equals_idle_start_with_session_reuse (env : Env) (s : PageState) (c : Nat)
    (hs : s.status = Status.finished) (hc : s.audioContext = some c) :
    startExperience env s = startExperience env { s with status := Status.idle } ∧
    (startExperience env s).1.audioContext = some c ∧
    (startExperience env s).1.status = Status.playing := by
  cases env with
  | mk w a =>
    cases s with
    | mk vis act st el ctx susp mg amb sched ti nh ng cn =>
      simp only at hs hc
      subst hs
      subst hc
      cases w <;> cases susp <;> cases mg <;> cases amb <;> cases ti <;>
        simp [startExperience, resetForStart, clearSchedule, ensureAudioContext,
          beginAmbientBed, triggerEffects, startTimer, pushTimeouts, STORY_SEGMENTS,
          segIdAt, freshAmbientNodes, ambientNodeCount, effectNodeCount]

theorem replay_equals_idle_start_with_session_reuse_witness :
    startExperience fullAudioEnv finishedState
      = startExperience fullAudioEnv { finishedState with status := Status.idle } ∧
    (startExperience fullAudioEnv finishedState).1.audioContext = some 0 ∧
    (startExperience fullAudioEnv finishedState).1.status = Status.playing :=
  replay_equals_idle_start_with_session_reuse fullAudioEnv finishedState 0 rfl rfl

lemma listJoin_append {α : Type} (xs ys : List (List α)) :
    listJoin (xs ++ ys) = listJoin xs ++ listJoin ys := by
  induction xs with
  | nil => rfl
  | cons x xs ih => simp [listJoin, ih]

lemma filterMap_listJoin {α β : Type} (f : α → Option β) (ls : List (List α)) :
    (listJoin ls).filterMap f = listJoin (ls.map (List.filterMap f)) := by
  induction ls with
  | nil => rfl
  | cons l ls ih => simp [listJoin, List.filterMap_append, ih]

lemma listJoin_nil_of_forall {α : Type} (ls : List (List α)) (h : ∀ l ∈ ls, l = []) :
    listJoin ls = [] := by
  induction ls with
  | nil => rfl
  | cons l ls ih =>
    have hl := h l (by simp)
    have hrest := ih (fun x hx => h x (by simp [hx]))
    simp [listJoin, hl, hrest]

lemma listJoin_map_range_single {α : Type} (f : Nat → List α) (n j : Nat) (x : List α)
    (hj : j < n) (hx : f j = x) (hz : ∀ i, i < n → i ≠ j → f i = []) :
    listJoin ((List.range n).map f) = x := by
  induction n with
  | zero => omega
  | succ n ih =>
    rw [List.range_succ, List.map_append, listJoin_append]
    by_cases hjn : j = n
    · subst hjn
      have hpre : listJoin ((List.range j).map f) = [] := by
        apply listJoin_nil_of_forall
        intro l hl
        rw [List.mem_map] at hl
        obtain ⟨i, hi, rfl⟩ := hl
        rw [List.mem_range] at hi
        exact hz i (by omega) (by omega)
      simp [hpre, listJoin, hx]
    · have hn : f n = [] := hz n (by omega) (fun he => hjn he.symm)
      have hrec := ih (by omega) (fun i hi hij => hz i (by omega) hij)
      simp [listJoin, hn, hrec]

lemma totalDuration_foldl (segs : List StorySegment) (a : Nat) :
    segs.foldl (fun sum seg => sum + seg.duration) a = a + totalDuration segs := by
  induction segs generalizing a with
  | nil => simp [totalDuration]
  | cons seg rest ih =>
    simp only [List.foldl_cons, totalDuration]
    rw [ih (a + seg.duration), ih (0 + seg.duration)]
    omega

lemma totalDuration_cons (seg : StorySegment) (rest : List StorySegment) :
    totalDuration (seg :: rest) = seg.duration + totalDuration rest := by
  simp only [totalDuration, List.foldl_cons]
  rw [totalDuration_foldl, totalDuration_foldl]
  omega

lemma durAt_cons_succ (seg : StorySegment) (l : List StorySegment) (k : Nat) :
    durAt (seg :: l) (k + 1) = durAt l k := by
  simp [durAt]

lemma totalDuration_take_last (segs : List StorySegment) (h : 1 ≤ segs.length) :
    totalDuration (segs.take (segs.length - 1)) + durAt segs (segs.length - 1)
      = totalDuration segs := by
  induction segs with
  | nil => simp at h
  | cons seg rest ih =>
    cases rest with
    | nil => simp [totalDuration, durAt]
    | cons seg2 rest2 =>
      have ihh := ih (by simp)
      simp only [List.length_cons, Nat.add_sub_cancel] at ihh ⊢
      rw [List.take_succ_cons, durAt_cons_succ, totalDuration_cons, totalDuration_cons]
      omega

/-- A timeline consisting of a single segment. -/
def soloSegment : StorySegment :=
  { id := "solo", text := "a timeline with a single segment", duration := 1000,
    effects := some [] }

/-- C3 counterexample: on a timeline with exactly one segment the
scheduling loop skips index 0 and registers nothing, so no callback ever
performs the finished transition at all; in particular it does not fire
at TotalDuration = 1000. -/
theorem finished_never_scheduled_solo_cex :
    finishTimes [soloSegment] = [] ∧ totalDuration [soloSegment] = 1000 := by
  decide

/-- C3 amended: for every timeline with at least two segments, the
terminal finished transition is scheduled to fire at exactly
TotalDuration: the deferred callback of the last segment fires at the
sum of all earlier durations and registers the finished callback at its
own duration past that point; a timeline with fewer than two segments
never schedules the finished transition. -/
theorem finished_fires_at_total_duration (segs : List StorySegment)
    (h2 : 2 ≤ segs.length) :
    finishTimes segs = [totalDuration segs] := by
  unfold finishTimes runBatches
  rw [List.filterMap_cons_none (by decide)]
  rw [filterMap_listJoin, List.map_map]
  apply listJoin_map_range_single _ segs.length (segs.length - 1)
  · omega
  · simp only [Function.comp_apply]
    unfold segmentBatches
    rw [if_neg (show ¬segs.length - 1 = 0 by omega), if_pos rfl]
    rw [List.filterMap_cons_none (by simp)]
    rw [List.filterMap_cons_some
      (show _ = some (totalDuration (segs.take (segs.length - 1))
          + durAt segs (segs.length - 1)) by simp)]
    rw [List.filterMap_nil]
    rw [totalDuration_take_last segs (by omega)]
  · intro i hi hij
    simp only [Function.comp_apply]
    unfold segmentBatches
    by_cases h0 : i = 0
    · rw [if_pos h0]
      rfl
    · rw [if_neg h0, if_neg hij]
      rw [List.filterMap_cons_none (by simp)]
      rfl

theorem finished_fires_at_total_duration_witness :
    finishTimes STORY_SEGMENTS = [TOTAL_DURATION] :=
  finished_fires_at_total_duration STORY_SEGMENTS (by decide)

lemma clearSchedule_frame (s : PageState) :
    (clearSchedule s).scheduleTimeouts = [] ∧ (clearSchedule s).nextHandle = s.nextHandle := by
  unfold clearSchedule
  cases s.timerInterval <;> simp

lemma ensureAudioContext_ok_frame (env : Env) (x y : PageState)
    (h : ensureAudioContext env x = .ok y) :
    y.scheduleTimeouts = x.scheduleTimeouts ∧ y.nextHandle = x.nextHandle := by
  unfold ensureAudioContext at h
  by_cases hw : env.hasWindow = false
  · simp [hw] at h
  · rw [if_neg hw] at h
    cases hc : x.audioContext with
    | none =>
      rw [hc] at h
      by_cases ha : env.audioSupported = false
      · simp [ha] at h
      · rw [if_neg ha] at h
        cases h
        simp
    | some c =>
      rw [hc] at h
      by_cases hs : x.contextSuspended
      · rw [if_pos hs] at h
        cases h
        simp
      · rw [if_neg hs] at h
        cases h
        simp

lemma resetForStart_frame (s : PageState) :
    (resetForStart s).scheduleTimeouts = [] ∧
    (resetForStart s).nextHandle = s.nextHandle := by
  unfold resetForStart
  exact ⟨(clearSchedule_frame s).1, (clearSchedule_frame s).2⟩

lemma startTimer_frame (s : PageState) :
    (startTimer s).scheduleTimeouts = s.scheduleTimeouts ∧
    (startTimer s).nextHandle = s.nextHandle + 1 :=
  ⟨rfl, rfl⟩

lemma beginAmbientBed_frame (s : PageState) :
    (beginAmbientBed s).scheduleTimeouts = s.scheduleTimeouts ∧
    (beginAmbientBed s).nextHandle = s.nextHandle := by
  unfold beginAmbientBed
  cases s.ambient <;> simp

lemma triggerEffects_frame (effects : Option (List StoryEffect)) (s : PageState) :
    (triggerEffects effects s).scheduleTimeouts = s.scheduleTimeouts ∧
    (triggerEffects effects s).nextHandle = s.nextHandle := by
  unfold triggerEffects
  cases effects with
  | none => simp
  | some effs =>
    cases effs with
    | nil => simp
    | cons e es =>
      cases s.audioContext <;> cases s.masterGain <;> simp

lemma pushTimeouts_mem (segs : List StorySegment) :
    ∀ (idx : Nat) (s : PageState) (h : Nat),
      h ∈ (pushTimeouts segs idx s).scheduleTimeouts →
      h ∈ s.scheduleTimeouts ∨ s.nextHandle ≤ h := by
  induction segs with
  | nil =>
    intro idx s h hm
    exact Or.inl hm
  | cons seg rest ih =>
    intro idx s h hm
    unfold pushTimeouts at hm
    by_cases hidx : idx = 0
    · rw [if_pos hidx] at hm
      exact ih (idx + 1) s h hm
    · rw [if_neg hidx] at hm
      rcases ih (idx + 1) _ h hm with h1 | h1
    
      · simp only [List.mem_append, List.mem_singleton] at h1
        rcases h1 with h1 | h1
        · exact Or.inl h1
        · right; omega
      · right
        simp only at h1
        omega

/-- C10: startExperience unconditionally clears every previously pending
deferred callback and the ticker before scheduling a new run: assuming
every currently pending handle was allocated earlier than the allocator
counter (which every reachable state satisfies), no old handle survives
into the pending set after start, and every handle pending after start
is newly allocated — so the pending set always belongs to at most one
playback run, even when start is invoked while a run is in progress. -/
theorem start_pending_belongs_to_one_run (env : Env) (s : PageState)
    (hb : ∀ h ∈ s.scheduleTimeouts, h < s.nextHandle) :
    (∀ h ∈ s.scheduleTimeouts, h ∉ (startExperience env s).1.scheduleTimeouts) ∧
    (∀ h ∈ (startExperience env s).1.scheduleTimeouts, s.nextHandle ≤ h) := by
  obtain ⟨hr1, hr2⟩ := resetForStart_frame s
  have main : ∀ h ∈ (startExperience env s).1.scheduleTimeouts, s.nextHandle ≤ h := by
    intro h hm
    simp only [startExperience] at hm
    cases hE : ensureAudioContext env (resetForStart s) with
    | error e =>
      rw [hE] at hm
      simp only at hm
      rw [hr1] at hm
      exact absurd hm (List.not_mem_nil h)
    | ok s3 =>
      rw [hE] at hm
      simp only at hm
      obtain ⟨hE1, hE2⟩ := ensureAudioContext_ok_frame env _ s3 hE
      rw [hr1] at hE1
      rw [hr2] at hE2
      obtain ⟨hb1, hb2⟩ := beginAmbientBed_frame s3
      obtain ⟨ht1, ht2⟩ :=
        triggerEffects_frame ((STORY_SEGMENTS.get? 0).bind (fun seg => seg.effects))
          (beginAmbientBed s3)
      rcases pushTimeouts_mem STORY_SEGMENTS 0 _ h hm with h1 | h1
      · simp only [startTimer] at h1
        rw [ht1, hb1, hE1] at h1
        exact absurd h1 (List.not_mem_nil h)
      · simp only [startTimer] at h1
        rw [ht2, hb2, hE2] at h1
        omega
  refine ⟨?_, main⟩
  intro h hmem hcontra
  have h1 := main h hcontra
  have h2 := hb h hmem
  omega

theorem start_pending_belongs_to_one_run_witness :
    (∀ h ∈ runningAmbientState.scheduleTimeouts,
      h ∉ (startExperience fullAudioEnv runningAmbientState).1.scheduleTimeouts) ∧
    (∀ h ∈ (startExperience fullAudioEnv runningAmbientState).1.scheduleTimeouts,
      runningAmbientState.nextHandle ≤ h) :=
  start_pending_belongs_to_one_run fullAudioEnv runningAmbientState
    (by intro h hm; simp [runningAmbientState, initialPageState] at hm)
